import Mathlib

/-!
Verification development for the Discord calendar bridge bot
(`src/bot.ts`, OAuth-gated variant — the canonical one per the design
notes: it strictly extends the basic variant's routing logic).

The bot's message pipeline is shallowly embedded as pure Lean functions.
External I/O (HTTP calls, Discord replies) is abstracted by an `Env`
record of oracle outcomes; the observable behaviour of a run (requests
issued, replies sent, forwarder invocations) is accumulated in a `Trace`.
JavaScript exceptions are modelled with `Except`, so `try/catch` becomes
an explicit `catchAll` combinator, and effects performed before a throw
are retained, as in JavaScript.
-/

namespace CalBot

/-- JavaScript truthiness of an optional string (`undefined`/`null` and
the empty string are falsy). -/
def optTruthy : Option String → Bool
  | some s => s ≠ ""
  | none => false

/-- JavaScript `a || b` for an optional string `a` with default `b`:
the default is used when `a` is absent or empty. -/
def jsOr (o : Option String) (d : String) : String :=
  match o with
  | some s => if s = "" then d else s
  | none => d

/-- Substring containment on character lists (JavaScript
`String.prototype.includes`). -/
def containsSeq (pat : List Char) : List Char → Bool
  | [] => pat.isEmpty
  | c :: rest => pat.isPrefixOf (c :: rest) || containsSeq pat rest

/-- Model of `s.includes(pat)`. -/
def strContainsSub (s pat : String) : Bool := containsSeq pat.data s.data

/-- Model of `s.startsWith(pat)`. -/
def startsWithStr (s pat : String) : Bool := pat.data.isPrefixOf s.data

/-- Model of `s.toLowerCase()`, character-wise. -/
def toLowerStr (s : String) : String := ⟨s.data.map Char.toLower⟩

/-- Model of `s.trim()`: strip whitespace from both ends. -/
def trimStr (s : String) : String :=
  ⟨((s.data.dropWhile Char.isWhitespace).reverse.dropWhile Char.isWhitespace).reverse⟩

/-- Model of `s.replace(pat, rep)` with a string pattern: JavaScript replaces the
first occurrence only. -/
def replaceFirstAux (pat rep : List Char) : List Char → List Char
  | [] => if pat.isEmpty then rep else []
  | c :: rest =>
      if pat.isPrefixOf (c :: rest) then rep ++ (c :: rest).drop pat.length
      else c :: replaceFirstAux pat rep rest

def replaceFirst (s pat rep : String) : String :=
  ⟨replaceFirstAux pat.data rep.data s.data⟩

/-- Predicate `res.ok` of the fetch API: HTTP status in the 2xx range. -/
def httpOk (status : Nat) : Bool :=
  decide (200 ≤ status) && decide (status < 300)

/-- A parsed JSON value, reduced to what the bot observes: its
truthiness. Objects and arrays are collapsed into `jobj` (truthy). -/
inductive JsValue where
  | jnull
  | jbool (b : Bool)
  | jnum (n : Int)
  | jstr (s : String)
  | jobj
deriving DecidableEq

/-- JavaScript truthiness of a JSON value. -/
def truthy : JsValue → Bool
  | .jnull => false
  | .jbool b => b
  | .jnum n => n ≠ 0
  | .jstr s => s ≠ ""
  | .jobj => true

/-- Outcome of `await res.json()`: the body either fails to parse as
structured data (the promise rejects) or yields a value of shape `β`. -/
inductive BodyOf (β : Type) where
  | parseFail
  | val (b : β)
deriving DecidableEq

/-- Outcome of `await fetch(...)`: either the promise rejects (network
failure) or a response arrives with an HTTP status and a body. -/
inductive FetchResult (β : Type) where
  | netThrow
  | resp (status : Nat) (body : BodyOf β)
deriving DecidableEq

/-- Fields of the registration-status endpoint's JSON body that the bot
reads (`StatusResponse`): the truthiness of `result.success` and
`result.registered`, `result.user?.email`, and `result.user?.registeredAt`
(the timestamp is kept as an opaque string). -/
structure StatusBody where
  success : Bool
  registered : Bool
  email : Option String
  registeredAt : Option String
deriving DecidableEq

/-- Fields of the OAuth-initiation endpoint's JSON body that the bot
reads: truthiness of `result.success`, `result.authUrl`, `result.error`. -/
structure OauthBody where
  success : Bool
  authUrl : Option String
  error : Option String
deriving DecidableEq

/-- Resolved configuration (`this.config` after environment resolution).
`BOT_TOKEN` may be absent; the other fields always resolve to strings
(possibly via defaults). -/
structure Config where
  BOT_TOKEN : Option String
  RECEIVER_URL : String
  RECEIVER_TOKEN : String
  ALLOWED_CHANNELS : List String
deriving DecidableEq

/-- A message attachment as the bot reads it: CDN URL, display name
(nullable), declared content type (nullable). -/
structure Attachment where
  url : String
  name : Option String
  contentType : Option String
deriving DecidableEq

/-- An inbound Discord message, restricted to the fields the bot reads.
`guildId = none` means a direct message. -/
structure Msg where
  id : String
  authorId : String
  authorUsername : String
  authorIsBot : Bool
  channelId : String
  guildId : Option String
  content : String
  attachments : List Attachment
deriving DecidableEq

/-- An outbound HTTP request as recorded in the trace: a GET of a URL, or
a POST to a URL with an optional `x-receiver-token` header and its body
fields (form-data or JSON) flattened to key/value pairs. -/
inductive Request where
  | get (url : String)
  | post (url : String) (token : Option String) (fields : List (String × String))
deriving DecidableEq

/-- Oracle for every external outcome one message-handling run can
observe: whether `message.reply` rejects, and the receiver's responses
per call site (status lookup, OAuth initiation, attachment download from
the CDN keyed by URL, and the receiver upload POST). -/
structure Env where
  replyThrows : Bool
  statusResult : FetchResult StatusBody
  oauthResult : FetchResult OauthBody
  attachmentFetch : String → FetchResult Unit
  uploadResult : FetchResult JsValue

/-- Observable effects of a run, in order of occurrence per list. -/
structure Trace where
  requests : List Request
  replies : List String
  attForwards : List (String × Option String)
  textForwards : List String
  regCmdCalls : Nat
  statusCmdCalls : Nat
deriving DecidableEq

def Trace.empty : Trace :=
  { requests := [], replies := [], attForwards := [], textForwards := [],
    regCmdCalls := 0, statusCmdCalls := 0 }

/-- A JavaScript exception, tagged by its source. -/
inductive JsErr where
  | netError
  | parseError
  | fetchNotOk (status : Nat)
  | replyError
deriving DecidableEq

/-- The effect monad: state-passing over the trace with JavaScript
exceptions. -/
abbrev Eff (α : Type) : Type := Trace → Except JsErr α × Trace

def Eff.pureE (a : α) : Eff α := fun t => (.ok a, t)

def Eff.bindE (x : Eff α) (f : α → Eff β) : Eff β := fun t =>
  match x t with
  | (.ok a, t') => f a t'
  | (.error e, t') => (.error e, t')

instance : Monad Eff where
  pure := Eff.pureE
  bind := Eff.bindE

/-- Combinator for `try x catch e => h e`: errors of `x` are handed to `h`, effects
performed before the throw are kept. -/
def catchAll (x : Eff α) (h : JsErr → Eff α) : Eff α := fun t =>
  match x t with
  | (.error e, t') => h e t'
  | r => r

def throwJs (e : JsErr) : Eff α := fun t => (.error e, t)

@[simp] theorem Eff.bind_apply (x : Eff α) (f : α → Eff β) (t : Trace) :
    (x >>= f) t =
      match x t with
      | (.ok a, t') => f a t'
      | (.error e, t') => (.error e, t') := rfl

@[simp] theorem Eff.pure_apply (a : α) (t : Trace) :
    (pure a : Eff α) t = (.ok a, t) := rfl

@[simp] theorem catchAll_apply (x : Eff α) (h : JsErr → Eff α) (t : Trace) :
    catchAll x h t =
      match x t with
      | (.error e, t') => h e t'
      | r => r := rfl

@[simp] theorem throwJs_apply (e : JsErr) (t : Trace) :
    (throwJs e : Eff α) t = (.error e, t) := rfl

/-- Record an outbound HTTP request in the trace. -/
def recordRequest (r : Request) : Eff Unit := fun t =>
  (.ok (), { t with requests := t.requests ++ [r] })

/-- Model of `await fetch(...)` followed by inspecting the response: records the
request, then either rejects (network failure) or yields status and
unparsed body. -/
def fetchReq (r : Request) (res : FetchResult β) : Eff (Nat × BodyOf β) := fun t =>
  match res with
  | .netThrow => (.error .netError, { t with requests := t.requests ++ [r] })
  | .resp status body => (.ok (status, body), { t with requests := t.requests ++ [r] })

/-- Model of `await res.json()`: rejects when the body is not structured data. -/
def parseBody (b : BodyOf β) : Eff β := fun t =>
  match b with
  | .parseFail => (.error .parseError, t)
  | .val v => (.ok v, t)

/-- Model of `await message.reply(s)`: rejects when the oracle says so, otherwise
records the reply as sent. -/
def reply (env : Env) (s : String) : Eff Unit := fun t =>
  if env.replyThrows then (.error .replyError, t)
  else (.ok (), { t with replies := t.replies ++ [s] })

@[simp] theorem recordRequest_apply (r : Request) (t : Trace) :
    recordRequest r t = (.ok (), { t with requests := t.requests ++ [r] }) := rfl

@[simp] theorem parseBody_apply (b : BodyOf β) (t : Trace) :
    parseBody b t =
      match b with
      | .parseFail => (.error .parseError, t)
      | .val v => (.ok v, t) := rfl

/-- URL `RECEIVER_URL.replace('/api/receiver/image', '/api/discord/register')
+ '?discordId=' + id`. -/
def registerStatusUrl (cfg : Config) (discordId : String) : String :=
  replaceFirst cfg.RECEIVER_URL "/api/receiver/image" "/api/discord/register"
    ++ "?discordId=" ++ discordId

/-- Function `getUserEmail` (bot.ts lines 614-630): GET the registration-status
endpoint; return the email only on HTTP success with a body whose
`success`, `registered` and `user?.email` fields are all truthy; any
other outcome — including a rejected fetch or an unparseable body —
collapses to `null`. -/
def getUserEmail (cfg : Config) (env : Env) (discordId : String) : Eff (Option String) :=
  catchAll
    (do
      let (status, body) ← fetchReq (.get (registerStatusUrl cfg discordId)) env.statusResult
      let result ← parseBody body
      if httpOk status && result.success && result.registered && optTruthy result.email then
        pure result.email
      else
        pure none)
    (fun _ => pure none)

/-- Pure value computed by `getUserEmail` (its result is independent of
the incoming trace). -/
def lookupEmail (env : Env) : Option String :=
  match env.statusResult with
  | .resp status (.val b) =>
      if httpOk status && b.success && b.registered && optTruthy b.email then b.email
      else none
  | _ => none

theorem getUserEmail_run (cfg : Config) (env : Env) (discordId : String) (t : Trace) :
    getUserEmail cfg env discordId t =
      (.ok (lookupEmail env),
       { t with requests := t.requests ++ [.get (registerStatusUrl cfg discordId)] }) := by
  unfold getUserEmail lookupEmail fetchReq
  cases h : env.statusResult with
  | netThrow => simp [h]
  | resp status body =>
    cases body with
    | parseFail => simp [h]
    | val b =>
      simp [h, apply_ite (fun f : Eff (Option String) =>
        f { t with requests := t.requests ++ [.get (registerStatusUrl cfg discordId)] })]
      by_cases hc : ((httpOk status = true ∧ b.success = true) ∧ b.registered = true)
          ∧ optTruthy b.email = true <;>
        simp [hc]

/-! ### Forwarder (bot.ts lines 340-456) -/

/-- Value `att.name || undefined` at the call site of `forwardAttachment`:
a null or empty display name is passed as `undefined`. -/
def jsNameOrUndefined (n : Option String) : Option String :=
  match n with
  | some s => if s = "" then none else some s
  | none => none

/-- Registration prompt sent from inside `forwardAttachment` when the
account lookup returns null (bot.ts line 354). -/
def registrationPrompt : String :=
  "❌ **You need to register first!**\n\nTo link your Discord account with your email, use:\n`!register your.email@example.com`\n\nAfter registration, you can upload images and they will be saved to your calendar account."

/-- The multipart POST built by `forwardAttachment` (bot.ts lines
373-391), flattened to its field names and string values. The `file`
field is recorded by its filename `originalName || 'image'`. -/
def uploadImageRequest (cfg : Config) (msg : Msg) (originalName : Option String)
    (email : String) : Request :=
  .post cfg.RECEIVER_URL (some cfg.RECEIVER_TOKEN)
    [("file", jsOr originalName "image"),
     ("source", "discord"),
     ("discordMessageId", msg.id),
     ("discordChannelId", msg.channelId),
     ("discordAuthorId", msg.authorId),
     ("userEmail", email)]

/-- Instrumentation: an invocation of `forwardAttachment` is recorded
with its URL and name arguments. -/
def recordAttForwardCall (url : String) (name : Option String) : Eff Unit := fun t =>
  (.ok (), { t with attForwards := t.attForwards ++ [(url, name)] })

@[simp] theorem recordAttForwardCall_apply (url : String) (name : Option String) (t : Trace) :
    recordAttForwardCall url name t =
      (.ok (), { t with attForwards := t.attForwards ++ [(url, name)] }) := rfl

/-- Function `forwardAttachment` (bot.ts lines 340-411): look up the author's
registered email (reply with a registration prompt and fail when null),
download the attachment bytes (throwing on a non-2xx CDN response),
then POST the multipart payload to the receiver; success exactly when
the receiver answers 2xx with a truthy parsed body. Every throw is
caught and converted to `false`. -/
def forwardAttachment (cfg : Config) (env : Env) (msg : Msg) (attachmentUrl : String)
    (originalName : Option String) : Eff Bool := do
  recordAttForwardCall attachmentUrl originalName
  catchAll
    (do
      let userEmail ← getUserEmail cfg env msg.authorId
      match userEmail with
      | none => do
          reply env registrationPrompt
          pure false
      | some email => do
          let (fstatus, _) ← fetchReq (.get attachmentUrl) (env.attachmentFetch attachmentUrl)
          if httpOk fstatus = false then
            throwJs (.fetchNotOk fstatus)
          else do
            let (ustatus, ubody) ←
              fetchReq (uploadImageRequest cfg msg originalName email) env.uploadResult
            let json ← parseBody ubody
            if !httpOk ustatus || !truthy json then pure false else pure true)
    (fun _ => pure false)

/-- The uniform success criterion both forwarder entry points apply to
the receiver's response: HTTP status 2xx and a truthy parsed body. -/
def uploadSuccess : FetchResult JsValue → Bool
  | .resp status (.val v) => httpOk status && truthy v
  | _ => false

/-- Pure return value of `forwardAttachment`. -/
def attForwardOutcome (env : Env) (url : String) : Bool :=
  match lookupEmail env with
  | none => false
  | some _ =>
      match env.attachmentFetch url with
      | .netThrow => false
      | .resp fstatus _ => httpOk fstatus && uploadSuccess env.uploadResult

/-- HTTP requests issued by one `forwardAttachment` run. -/
def attForwardRequests (cfg : Config) (env : Env) (msg : Msg) (url : String)
    (name : Option String) : List Request :=
  [.get (registerStatusUrl cfg msg.authorId)] ++
  match lookupEmail env with
  | none => []
  | some email =>
      [.get url] ++
      match env.attachmentFetch url with
      | .netThrow => []
      | .resp fstatus _ =>
          if httpOk fstatus then [uploadImageRequest cfg msg name email] else []

/-- Replies sent by one `forwardAttachment` run: the registration prompt
when the lookup fails and replying succeeds, nothing otherwise. -/
def attForwardReplies (env : Env) : List String :=
  if (lookupEmail env).isNone && !env.replyThrows then [registrationPrompt] else []

theorem forwardAttachment_run (cfg : Config) (env : Env) (msg : Msg) (url : String)
    (name : Option String) (t : Trace) :
    forwardAttachment cfg env msg url name t =
      (.ok (attForwardOutcome env url),
       { t with requests := t.requests ++ attForwardRequests cfg env msg url name,
                attForwards := t.attForwards ++ [(url, name)],
                replies := t.replies ++ attForwardReplies env }) := by
  unfold forwardAttachment attForwardOutcome attForwardRequests attForwardReplies
  simp only [Eff.bind_apply, recordAttForwardCall_apply, catchAll_apply]
  rw [getUserEmail_run]
  cases hl : lookupEmail env with
  | none =>
    cases hr : env.replyThrows <;> simp [reply, hr, hl]
  | some email =>
    cases hf : env.attachmentFetch url with
    | netThrow => simp [hl, hf, fetchReq]
    | resp fstatus fbody =>
      cases hok : httpOk fstatus with
      | false => simp [hl, hf, hok, fetchReq]
      | true =>
        cases hu : env.uploadResult with
        | netThrow => simp [hl, hf, hok, hu, fetchReq, uploadSuccess]
        | resp ustatus ubody =>
          cases ubody with
          | parseFail => simp [hl, hf, hok, hu, fetchReq, uploadSuccess]
          | val v =>
            cases hok2 : httpOk ustatus <;> cases htv : truthy v <;>
              simp_all [fetchReq, uploadSuccess]

/-- The form POST built by `forwardText` (bot.ts lines 425-439). -/
def uploadTextRequest (cfg : Config) (msg : Msg) (content : String) : Request :=
  .post cfg.RECEIVER_URL (some cfg.RECEIVER_TOKEN)
    [("text", content),
     ("source", "discord"),
     ("discordMessageId", msg.id),
     ("discordChannelId", msg.channelId),
     ("discordAuthorId", msg.authorId)]

/-- Instrumentation: an invocation of `forwardText` is recorded by the
message id. -/
def recordTextForwardCall (msg : Msg) : Eff Unit := fun t =>
  (.ok (), { t with textForwards := t.textForwards ++ [msg.id] })

@[simp] theorem recordTextForwardCall_apply (msg : Msg) (t : Trace) :
    recordTextForwardCall msg t =
      (.ok (), { t with textForwards := t.textForwards ++ [msg.id] }) := rfl

/-- Function `forwardText` (bot.ts lines 413-456): fail on empty trimmed content
without any HTTP request, otherwise POST the form payload; success
exactly when the receiver answers 2xx with a truthy parsed body. Every
throw is caught and converted to `false`. -/
def forwardText (cfg : Config) (env : Env) (msg : Msg) : Eff Bool := do
  recordTextForwardCall msg
  catchAll
    (do
      let content := (trimStr msg.content)
      if content = "" then pure false
      else do
        let (status, body) ← fetchReq (uploadTextRequest cfg msg content) env.uploadResult
        let json ← parseBody body
        if !httpOk status || !truthy json then pure false else pure true)
    (fun _ => pure false)

/-- Pure return value of `forwardText`. -/
def textForwardOutcome (env : Env) (msg : Msg) : Bool :=
  if (trimStr msg.content) = "" then false else uploadSuccess env.uploadResult

/-- HTTP requests issued by one `forwardText` run. -/
def textForwardRequests (cfg : Config) (msg : Msg) : List Request :=
  if (trimStr msg.content) = "" then [] else [uploadTextRequest cfg msg (trimStr msg.content)]

theorem forwardText_run (cfg : Config) (env : Env) (msg : Msg) (t : Trace) :
    forwardText cfg env msg t =
      (.ok (textForwardOutcome env msg),
       { t with requests := t.requests ++ textForwardRequests cfg msg,
                textForwards := t.textForwards ++ [msg.id] }) := by
  unfold forwardText textForwardOutcome textForwardRequests
  simp only [Eff.bind_apply, recordTextForwardCall_apply, catchAll_apply]
  cases he : decide ((trimStr msg.content) = "") with
  | true => simp_all
  | false =>
    have he' : ¬ (trimStr msg.content) = "" := of_decide_eq_false he
    cases hu : env.uploadResult with
    | netThrow => simp [he', hu, fetchReq, uploadSuccess]
    | resp ustatus ubody =>
      cases ubody with
      | parseFail => simp [he', hu, fetchReq, uploadSuccess]
      | val v =>
        cases hok2 : httpOk ustatus <;> cases htv : truthy v <;>
          simp_all [fetchReq, uploadSuccess]

/-! ### Command handlers (bot.ts lines 536-612) -/

/-- URL `RECEIVER_URL.replace('/api/receiver/image', '/api/auth/oauth/initiate')`. -/
def oauthInitUrl (cfg : Config) : String :=
  replaceFirst cfg.RECEIVER_URL "/api/receiver/image" "/api/auth/oauth/initiate"

/-- The OAuth-initiation POST (bot.ts lines 556-565): JSON body with the
author's id and username, no receiver token header. -/
def oauthInitRequest (cfg : Config) (msg : Msg) : Request :=
  .post (oauthInitUrl cfg) none
    [("discordId", msg.authorId), ("discordUsername", msg.authorUsername)]

def invalidRegisterFormatReply : String :=
  "❌ Invalid format. Use: `!register` (no email needed - you\x27ll authenticate with Google)"

def oauthAuthReply (authUrl : String) : String :=
  "🔐 **Google Authentication Required**\n\nTo securely link your Discord account with your Google email, please click the link below:\n\n🔗 **[Authenticate with Google](" ++ authUrl ++ ")**\n\n⚠️ This link expires in 10 minutes for security.\n✅ After authentication, you\x27ll be able to upload images that will be saved to your calendar."

def oauthFailReply (err : String) : String :=
  "❌ Authentication setup failed: " ++ err

def oauthTechErrorReply : String :=
  "❌ Authentication setup failed due to a technical error. Please try again later."

/-- Instrumentation: entry into `handleRegistrationCommand`. -/
def recordRegCmdCall : Eff Unit := fun t =>
  (.ok (), { t with regCmdCalls := t.regCmdCalls + 1 })

@[simp] theorem recordRegCmdCall_apply (t : Trace) :
    recordRegCmdCall t = (.ok (), { t with regCmdCalls := t.regCmdCalls + 1 }) := rfl

/-- Function `handleRegistrationCommand` (bot.ts lines 536-588): reject with a
corrective reply unless the trimmed content is exactly `!register`;
otherwise POST the author's id and username to the OAuth-initiation
endpoint and reply with the authentication link or an error message.
The catch block replies with a generic error (and that reply itself may
throw, propagating to the caller). -/
def handleRegistrationCommand (cfg : Config) (env : Env) (msg : Msg) : Eff Unit := do
  recordRegCmdCall
  catchAll
    (do
      let content := (trimStr msg.content)
      if content ≠ "!register" then
        reply env invalidRegisterFormatReply
      else do
        let (status, body) ← fetchReq (oauthInitRequest cfg msg) env.oauthResult
        let result ← parseBody body
        if httpOk status && result.success && optTruthy result.authUrl then
          reply env (oauthAuthReply (result.authUrl.getD ""))
        else
          reply env (oauthFailReply (jsOr result.error "Unknown error")))
    (fun _ => reply env oauthTechErrorReply)

/-- Pure result of a handler whose every path ends in a reply: it errors
exactly when replying rejects. -/
def handlerResult (env : Env) : Except JsErr Unit :=
  if env.replyThrows then .error .replyError else .ok ()

/-- HTTP requests issued by one `handleRegistrationCommand` run. -/
def regCmdRequests (cfg : Config) (msg : Msg) : List Request :=
  if (trimStr msg.content) = "!register" then [oauthInitRequest cfg msg] else []

/-- Replies sent by one `handleRegistrationCommand` run. -/
def regCmdReplies (env : Env) (msg : Msg) : List String :=
  if env.replyThrows then []
  else if (trimStr msg.content) ≠ "!register" then [invalidRegisterFormatReply]
  else
    match env.oauthResult with
    | .resp status (.val b) =>
        if httpOk status && b.success && optTruthy b.authUrl then
          [oauthAuthReply (b.authUrl.getD "")]
        else
          [oauthFailReply (jsOr b.error "Unknown error")]
    | _ => [oauthTechErrorReply]

theorem handleRegistrationCommand_run (cfg : Config) (env : Env) (msg : Msg) (t : Trace) :
    handleRegistrationCommand cfg env msg t =
      (handlerResult env,
       { t with requests := t.requests ++ regCmdRequests cfg msg,
                replies := t.replies ++ regCmdReplies env msg,
                regCmdCalls := t.regCmdCalls + 1 }) := by
  unfold handleRegistrationCommand handlerResult regCmdRequests regCmdReplies
  simp only [Eff.bind_apply, recordRegCmdCall_apply, catchAll_apply]
  cases heq : decide ((trimStr msg.content) = "!register") with
  | false =>
    have h' : ¬ (trimStr msg.content) = "!register" := of_decide_eq_false heq
    cases hr : env.replyThrows <;> simp [reply, h', hr]
  | true =>
    have h' : (trimStr msg.content) = "!register" := of_decide_eq_true heq
    cases hr : env.replyThrows with
    | true =>
      cases ho : env.oauthResult with
      | netThrow => simp [reply, h', hr, ho, fetchReq]
      | resp status body =>
        cases body with
        | parseFail => simp [reply, h', hr, ho, fetchReq]
        | val b =>
          by_cases hc : (httpOk status = true ∧ b.success = true) ∧ optTruthy b.authUrl = true <;>
            simp [reply, fetchReq, h', hr, ho, hc]
    | false =>
      cases ho : env.oauthResult with
      | netThrow => simp [reply, h', hr, ho, fetchReq]
      | resp status body =>
        cases body with
        | parseFail => simp [reply, h', hr, ho, fetchReq]
        | val b =>
          by_cases hc : (httpOk status = true ∧ b.success = true) ∧ optTruthy b.authUrl = true <;>
            simp [reply, fetchReq, h', hr, ho, hc]

def statusActiveReply (email dateStr : String) : String :=
  "✅ **Registration Status: ACTIVE**\n📧 Email: **" ++ email ++ "**\n📅 Registered: " ++ dateStr

def statusNotRegisteredReply : String :=
  "❌ **Registration Status: NOT REGISTERED**\n\nTo register your Discord account with your email, use:\n`!register your.email@example.com`"

def statusErrorReply : String :=
  "❌ Unable to check registration status. Please try again later."

/-- Formatting `new Date(s).toLocaleDateString()` abstracted: the raw timestamp
string stands for its locale rendering (no claim depends on the text). -/
def toLocaleDateString (s : String) : String := s

/-- Instrumentation: entry into `handleStatusCommand`. -/
def recordStatusCmdCall : Eff Unit := fun t =>
  (.ok (), { t with statusCmdCalls := t.statusCmdCalls + 1 })

@[simp] theorem recordStatusCmdCall_apply (t : Trace) :
    recordStatusCmdCall t = (.ok (), { t with statusCmdCalls := t.statusCmdCalls + 1 }) := rfl

/-- Function `handleStatusCommand` (bot.ts lines 590-612): GET the
registration-status endpoint and reply with the active-registration
summary or the not-registered prompt; the catch block replies with a
generic error. JavaScript renders an absent `user?.email` as the string
`undefined`. -/
def handleStatusCommand (cfg : Config) (env : Env) (msg : Msg) : Eff Unit := do
  recordStatusCmdCall
  catchAll
    (do
      let (status, body) ← fetchReq (.get (registerStatusUrl cfg msg.authorId)) env.statusResult
      let result ← parseBody body
      if httpOk status && result.success && result.registered then
        reply env (statusActiveReply
          (match result.email with | some e => e | none => "undefined")
          (if optTruthy result.registeredAt then toLocaleDateString (result.registeredAt.getD "")
           else "Unknown"))
      else
        reply env statusNotRegisteredReply)
    (fun _ => reply env statusErrorReply)

/-- Replies sent by one `handleStatusCommand` run. -/
def statusCmdReplies (env : Env) : List String :=
  if env.replyThrows then []
  else
    match env.statusResult with
    | .resp status (.val b) =>
        if httpOk status && b.success && b.registered then
          [statusActiveReply
            (match b.email with | some e => e | none => "undefined")
            (if optTruthy b.registeredAt then toLocaleDateString (b.registeredAt.getD "")
             else "Unknown")]
        else
          [statusNotRegisteredReply]
    | _ => [statusErrorReply]

theorem handleStatusCommand_run (cfg : Config) (env : Env) (msg : Msg) (t : Trace) :
    handleStatusCommand cfg env msg t =
      (handlerResult env,
       { t with requests := t.requests ++ [.get (registerStatusUrl cfg msg.authorId)],
                replies := t.replies ++ statusCmdReplies env,
                statusCmdCalls := t.statusCmdCalls + 1 }) := by
  unfold handleStatusCommand handlerResult statusCmdReplies
  simp only [Eff.bind_apply, recordStatusCmdCall_apply, catchAll_apply]
  cases hr : env.replyThrows with
  | true =>
    cases hs : env.statusResult with
    | netThrow => simp [reply, hr, hs, fetchReq]
    | resp status body =>
      cases body with
      | parseFail => simp [reply, hr, hs, fetchReq]
      | val b =>
        by_cases hc : (httpOk status = true ∧ b.success = true) ∧ b.registered = true <;>
          simp [reply, fetchReq, hr, hs, hc]
  | false =>
    cases hs : env.statusResult with
    | netThrow => simp [reply, hr, hs, fetchReq]
    | resp status body =>
      cases body with
      | parseFail => simp [reply, hr, hs, fetchReq]
      | val b =>
        by_cases hc : (httpOk status = true ∧ b.success = true) ∧ b.registered = true <;>
          simp [reply, fetchReq, hr, hs, hc]

/-! ### Message classifier and router (bot.ts lines 458-534) -/

/-- Check `(att.contentType || '').toLowerCase()` matched by substring against
the fixed image-type set (bot.ts lines 495-496). -/
def isImageContentType (ct : Option String) : Bool :=
  let lower := toLowerStr (ct.getD "")
  strContainsSub lower "image/jpeg" || strContainsSub lower "image/png" ||
  strContainsSub lower "image/webp" || strContainsSub lower "image/gif"

def imageSuccessReply : String :=
  "Got it! I received your image and started processing."

def imageFailureReply : String :=
  "Sorry, I could not process that image. Please try again."

/-- The allow-list guard (bot.ts line 483): a guild message is dropped
when the allow-list is non-empty and does not contain its channel. -/
def channelBlocked (cfg : Config) (msg : Msg) : Bool :=
  msg.guildId.isSome && decide (0 < cfg.ALLOWED_CHANNELS.length) &&
    !(cfg.ALLOWED_CHANNELS.contains msg.channelId)

/-- One iteration of the attachment loop (bot.ts lines 493-512):
image-typed attachments are forwarded; in a DM an acknowledgment reply
reports the outcome; non-image attachments are skipped silently. -/
def handleAttachment (cfg : Config) (env : Env) (msg : Msg) (att : Attachment) : Eff Unit := do
  if isImageContentType att.contentType then do
    let ok ← forwardAttachment cfg env msg att.url (jsNameOrUndefined att.name)
    if msg.guildId = none then
      if ok then reply env imageSuccessReply else reply env imageFailureReply
    else pure ()
  else pure ()

/-- The `for (const att of attachments)` loop. -/
def handleAttachments (cfg : Config) (env : Env) (msg : Msg) : List Attachment → Eff Unit
  | [] => pure ()
  | att :: rest => do
      handleAttachment cfg env msg att
      handleAttachments cfg env msg rest

/-- Function `handleMessage` (bot.ts lines 458-534), the platform dispatcher's
callback. Decision order: bot author → `!register` prefix → status
tokens → allow-list guard → attachments → non-command text → nothing.
The whole body is wrapped in a catch that only logs. -/
def handleMessage (cfg : Config) (env : Env) (msg : Msg) : Eff Unit :=
  catchAll
    (do
      if msg.authorIsBot then pure ()
      else if startsWithStr msg.content "!register" then
        handleRegistrationCommand cfg env msg
      else if msg.content = "!status" ∨ msg.content = "!whoami" then
        handleStatusCommand cfg env msg
      else if channelBlocked cfg msg then
        pure ()
      else
        if 0 < msg.attachments.length then
          handleAttachments cfg env msg msg.attachments
        else if msg.content ≠ "" ∧ 0 < (trimStr msg.content).length then
          if startsWithStr msg.content "!" then pure ()
          else do
            let _ ← forwardText cfg env msg
            pure ()
        else pure ())
    (fun _ => pure ())

/-- One full run of the message handler from the empty trace. -/
def runHandle (cfg : Config) (env : Env) (msg : Msg) : Except JsErr Unit × Trace :=
  handleMessage cfg env msg Trace.empty

/-! ### Characterization of the attachment loop -/

/-- Replies produced by one attachment-loop iteration (when replying
does not throw). -/
def attachmentStepReplies (env : Env) (msg : Msg) (att : Attachment) : List String :=
  if isImageContentType att.contentType then
    attForwardReplies env ++
    (if msg.guildId = none then
       [if attForwardOutcome env att.url then imageSuccessReply else imageFailureReply]
     else [])
  else []

/-- Invocations of `forwardAttachment` produced by one iteration. -/
def attachmentStepForwards (att : Attachment) : List (String × Option String) :=
  if isImageContentType att.contentType then [(att.url, jsNameOrUndefined att.name)] else []

/-- HTTP requests produced by one iteration. -/
def attachmentStepRequests (cfg : Config) (env : Env) (msg : Msg) (att : Attachment) :
    List Request :=
  if isImageContentType att.contentType then
    attForwardRequests cfg env msg att.url (jsNameOrUndefined att.name)
  else []

theorem handleAttachment_run (cfg : Config) (env : Env) (msg : Msg) (att : Attachment)
    (h : env.replyThrows = false) (t : Trace) :
    handleAttachment cfg env msg att t =
      (.ok (),
       { t with requests := t.requests ++ attachmentStepRequests cfg env msg att,
                replies := t.replies ++ attachmentStepReplies env msg att,
                attForwards := t.attForwards ++ attachmentStepForwards att }) := by
  unfold handleAttachment attachmentStepRequests attachmentStepReplies attachmentStepForwards
  cases hi : isImageContentType att.contentType with
  | false => simp [hi]
  | true =>
    simp only [hi, if_true, Eff.bind_apply, if_pos]
    rw [forwardAttachment_run]
    by_cases hg : msg.guildId = none
    · cases ho : attForwardOutcome env att.url <;>
        simp [hg, ho, reply, h, List.append_assoc]
    · simp [hg, reply, h]

theorem handleAttachments_run (cfg : Config) (env : Env) (msg : Msg)
    (h : env.replyThrows = false) :
    ∀ (l : List Attachment) (t : Trace),
    handleAttachments cfg env msg l t =
      (.ok (),
       { t with requests := t.requests ++ l.flatMap (attachmentStepRequests cfg env msg),
                replies := t.replies ++ l.flatMap (attachmentStepReplies env msg),
                attForwards := t.attForwards ++ l.flatMap attachmentStepForwards }) := by
  intro l
  induction l with
  | nil => intro t; simp [handleAttachments]
  | cons att rest ih =>
    intro t
    unfold handleAttachments
    simp only [Eff.bind_apply]
    rw [handleAttachment_run cfg env msg att h]
    simp [ih, List.append_assoc]

/-! ### Dispatch lemmas for `handleMessage` -/

theorem catchAll_pure_ok (x : Eff Unit) (t : Trace) :
    (catchAll x (fun _ => pure ()) t).1 = Except.ok () := by
  unfold catchAll
  rcases hx : x t with ⟨res, t'⟩
  cases res with
  | ok a => cases a; simp [hx]
  | error e => simp [hx]

theorem handleMessage_bot (cfg : Config) (env : Env) (msg : Msg)
    (hbot : msg.authorIsBot = true) (t : Trace) :
    handleMessage cfg env msg t = (.ok (), t) := by
  unfold handleMessage
  simp [hbot]

theorem handleMessage_register (cfg : Config) (env : Env) (msg : Msg)
    (hbot : msg.authorIsBot = false)
    (hreg : startsWithStr msg.content "!register" = true) (t : Trace) :
    handleMessage cfg env msg t =
      (.ok (),
       { t with requests := t.requests ++ regCmdRequests cfg msg,
                replies := t.replies ++ regCmdReplies env msg,
                regCmdCalls := t.regCmdCalls + 1 }) := by
  unfold handleMessage
  simp only [catchAll_apply, hbot, hreg, Bool.false_eq_true, if_false, if_true]
  rw [handleRegistrationCommand_run]
  unfold handlerResult
  cases hr : env.replyThrows <;> simp

theorem handleMessage_status (cfg : Config) (env : Env) (msg : Msg)
    (hbot : msg.authorIsBot = false)
    (hreg : startsWithStr msg.content "!register" = false)
    (hst : msg.content = "!status" ∨ msg.content = "!whoami") (t : Trace) :
    handleMessage cfg env msg t =
      (.ok (),
       { t with requests := t.requests ++ [.get (registerStatusUrl cfg msg.authorId)],
                replies := t.replies ++ statusCmdReplies env,
                statusCmdCalls := t.statusCmdCalls + 1 }) := by
  unfold handleMessage
  simp only [catchAll_apply, hbot, hreg, Bool.false_eq_true, if_false, if_pos hst]
  rw [handleStatusCommand_run]
  unfold handlerResult
  cases hr : env.replyThrows <;> simp

theorem handleMessage_blocked (cfg : Config) (env : Env) (msg : Msg)
    (hbot : msg.authorIsBot = false)
    (hreg : startsWithStr msg.content "!register" = false)
    (hst : ¬(msg.content = "!status" ∨ msg.content = "!whoami"))
    (hbl : channelBlocked cfg msg = true) (t : Trace) :
    handleMessage cfg env msg t = (.ok (), t) := by
  unfold handleMessage
  simp [hbot, hreg, hst, hbl]

theorem handleMessage_attachments (cfg : Config) (env : Env) (msg : Msg)
    (hbot : msg.authorIsBot = false)
    (hreg : startsWithStr msg.content "!register" = false)
    (hst : ¬(msg.content = "!status" ∨ msg.content = "!whoami"))
    (hbl : channelBlocked cfg msg = false)
    (hatt : 0 < msg.attachments.length)
    (hrt : env.replyThrows = false) (t : Trace) :
    handleMessage cfg env msg t =
      (.ok (),
       { t with
           requests := t.requests ++ msg.attachments.flatMap (attachmentStepRequests cfg env msg),
           replies := t.replies ++ msg.attachments.flatMap (attachmentStepReplies env msg),
           attForwards := t.attForwards ++ msg.attachments.flatMap attachmentStepForwards }) := by
  unfold handleMessage
  simp only [catchAll_apply, hbot, hreg, Bool.false_eq_true, if_false, if_neg hst,
    hbl, if_pos hatt]
  rw [handleAttachments_run cfg env msg hrt]

theorem handleMessage_text (cfg : Config) (env : Env) (msg : Msg)
    (hbot : msg.authorIsBot = false)
    (hreg : startsWithStr msg.content "!register" = false)
    (hst : ¬(msg.content = "!status" ∨ msg.content = "!whoami"))
    (hbl : channelBlocked cfg msg = false)
    (hatt : msg.attachments = [])
    (htxt : msg.content ≠ "" ∧ 0 < (trimStr msg.content).length)
    (hbang : startsWithStr msg.content "!" = false) (t : Trace) :
    handleMessage cfg env msg t =
      (.ok (),
       { t with requests := t.requests ++ textForwardRequests cfg msg,
                textForwards := t.textForwards ++ [msg.id] }) := by
  unfold handleMessage
  simp only [catchAll_apply, hbot, hreg, Bool.false_eq_true, if_false, if_neg hst, hbl,
    hatt, List.length_nil, lt_self_iff_false, if_pos htxt, hbang, Eff.bind_apply]
  rw [forwardText_run]
  simp

theorem handleMessage_unrecognizedCommand (cfg : Config) (env : Env) (msg : Msg)
    (hbot : msg.authorIsBot = false)
    (hreg : startsWithStr msg.content "!register" = false)
    (hst : ¬(msg.content = "!status" ∨ msg.content = "!whoami"))
    (hbl : channelBlocked cfg msg = false)
    (hatt : msg.attachments = [])
    (htxt : msg.content ≠ "" ∧ 0 < (trimStr msg.content).length)
    (hbang : startsWithStr msg.content "!" = true) (t : Trace) :
    handleMessage cfg env msg t = (.ok (), t) := by
  unfold handleMessage
  simp [hbot, hreg, hst, hbl, hatt, htxt, hbang]

/-! ### Lifecycle manager (bot.ts lines 283-326) -/

/-- The mutable service state: the platform client reference (abstracted
to presence) and the running flag. -/
structure ServiceState where
  client : Option Unit
  isRunning : Bool
deriving DecidableEq

/-- Startup/teardown errors surfaced by `start`. -/
inductive StartErr where
  | missingBotToken
  | missingReceiverToken
  | missingReceiverUrl
  | loginFailed
deriving DecidableEq

/-- Function `validateConfig` (bot.ts lines 269-281): throws on a missing/empty
bot token, receiver token, or receiver URL. -/
def validateConfig (cfg : Config) : Except StartErr Unit :=
  if optTruthy cfg.BOT_TOKEN = false then .error .missingBotToken
  else if cfg.RECEIVER_TOKEN = "" then .error .missingReceiverToken
  else if cfg.RECEIVER_URL = "" then .error .missingReceiverUrl
  else .ok ()

/-- Oracle for the lifecycle's external calls: whether `client.login`
resolves and whether `client.destroy` resolves. -/
structure LifecycleEnv where
  loginOk : Bool
  destroyOk : Bool

/-- Function `start` (bot.ts lines 283-311): no-op when already running;
otherwise validate config, create the client (assigned before login),
and log in; any throw is logged and rethrown to the caller. -/
def start (cfg : Config) (env : LifecycleEnv) (s : ServiceState) :
    Except StartErr Unit × ServiceState :=
  if s.isRunning then (.ok (), s)
  else
    match validateConfig cfg with
    | .error e => (.error e, s)
    | .ok () =>
        let s1 : ServiceState := { s with client := some () }
        if env.loginOk = false then (.error .loginFailed, s1)
        else (.ok (), { client := some (), isRunning := true })

/-- Function `stop` (bot.ts lines 313-326): no-op when not running or without a
client; otherwise destroy the client and clear the state, swallowing
any destroy error (state is then left untouched). -/
def stop (env : LifecycleEnv) (s : ServiceState) :
    Except StartErr Unit × ServiceState :=
  if s.isRunning = false ∨ s.client = none then (.ok (), s)
  else if env.destroyOk = false then (.ok (), s)
  else (.ok (), { client := none, isRunning := false })

/-! ### Concrete fixtures used by counterexamples and witnesses -/

def sampleConfig : Config :=
  { BOT_TOKEN := some "tok",
    RECEIVER_URL := "http://localhost:3000/api/receiver/image",
    RECEIVER_TOKEN := "secret",
    ALLOWED_CHANNELS := [] }

/-- Receiver answers: author registered with an email, all calls succeed. -/
def envRegistered : Env :=
  { replyThrows := false,
    statusResult := .resp 200 (.val
      { success := true, registered := true, email := some "a@b.c",
        registeredAt := some "2024-01-01" }),
    oauthResult := .resp 200 (.val
      { success := true, authUrl := some "https://auth.example/x", error := none }),
    attachmentFetch := fun _ => .resp 200 (.val ()),
    uploadResult := .resp 200 (.val .jobj) }

/-- Receiver answers: author not registered. -/
def envUnregistered : Env :=
  { envRegistered with
    statusResult := .resp 200 (.val
      { success := true, registered := false, email := none, registeredAt := none }) }

def pngAttachment : Attachment :=
  { url := "https://cdn.discordapp.com/x.png", name := some "x.png",
    contentType := some "image/png" }

def pdfAttachment : Attachment :=
  { url := "https://cdn.discordapp.com/y.pdf", name := some "y.pdf",
    contentType := some "application/pdf" }

/-- A guild-channel message carrying one PNG attachment. -/
def guildImageMsg : Msg :=
  { id := "m1", authorId := "u1", authorUsername := "alice", authorIsBot := false,
    channelId := "c1", guildId := some "g1", content := "", attachments := [pngAttachment] }

/-- The direct-message equivalent. -/
def dmImageMsg : Msg := { guildImageMsg with guildId := none }

/-! ### C1 -/

set_option maxRecDepth 16384 in
/-- C1, counterexample: in a guild channel, a message with one image
attachment from an author whose account lookup fails draws one reply
(the registration prompt sent from inside `forwardAttachment`), not the
zero replies the claim asserts for the guild failure case. -/
theorem C1_counterexample :
    guildImageMsg.guildId.isSome = true ∧
    guildImageMsg.attachments = [pngAttachment] ∧
    isImageContentType pngAttachment.contentType = true ∧
    attForwardOutcome envUnregistered pngAttachment.url = false ∧
    (runHandle sampleConfig envUnregistered guildImageMsg).2.replies = [registrationPrompt] ∧
    (runHandle sampleConfig envUnregistered guildImageMsg).2.replies ≠ [] :=
  ⟨rfl, rfl, by decide, by decide, by decide, by decide⟩

/-- C1, amended: for a message carrying one image attachment that
reaches the attachment step, provided the author's account lookup
succeeds (and replying does not itself fail), a direct message draws
exactly one acknowledgment reply — affirmative exactly on forward
success — and a guild-channel message draws zero replies. (When the
lookup fails, `forwardAttachment` itself sends a registration prompt,
so a guild message draws one reply and a direct message two.) -/
theorem C1_amended (cfg : Config) (env : Env) (msg : Msg) (att : Attachment) (e : String)
    (hbot : msg.authorIsBot = false)
    (hreg : startsWithStr msg.content "!register" = false)
    (hst : ¬(msg.content = "!status" ∨ msg.content = "!whoami"))
    (hbl : channelBlocked cfg msg = false)
    (hatt : msg.attachments = [att])
    (himg : isImageContentType att.contentType = true)
    (hrt : env.replyThrows = false)
    (hlook : lookupEmail env = some e) :
    (runHandle cfg env msg).2.replies =
      if msg.guildId = none then
        [if attForwardOutcome env att.url then imageSuccessReply else imageFailureReply]
      else [] := by
  unfold runHandle
  rw [handleMessage_attachments cfg env msg hbot hreg hst hbl (by rw [hatt]; simp) hrt]
  simp only [hatt, List.flatMap_cons, List.flatMap_nil, List.append_nil]
  unfold attachmentStepReplies attForwardReplies
  simp [himg, hlook, hrt]
  by_cases hg : msg.guildId = none <;> simp [hg, Trace.empty]

/-- C1 witness: the amended theorem applied to a direct message with one
PNG attachment and a registered author whose forward succeeds. -/
theorem C1_witness :
    (runHandle sampleConfig envRegistered dmImageMsg).2.replies =
      if dmImageMsg.guildId = none then
        [if attForwardOutcome envRegistered pngAttachment.url then imageSuccessReply
         else imageFailureReply]
      else [] :=
  C1_amended sampleConfig envRegistered dmImageMsg pngAttachment "a@b.c"
    rfl (by decide) (by decide) (by decide) rfl (by decide) rfl (by decide)

/-! ### C2 -/

/-- A status response whose body has `success:false` but
`registered:true` and an email present. -/
def envSuccessFalse : Env :=
  { envRegistered with
    statusResult := .resp 200 (.val
      { success := false, registered := true, email := some "a@b.c",
        registeredAt := none }) }

/-- C2, counterexample: an HTTP-success response whose body reports
`registered=true` with an email present still yields `null` when the
body's `success` flag is false — the claimed biconditional (email
returned exactly when HTTP success ∧ registered ∧ email present) fails. -/
theorem C2_counterexample :
    envSuccessFalse.statusResult = .resp 200 (.val
      { success := false, registered := true, email := some "a@b.c", registeredAt := none }) ∧
    httpOk 200 = true ∧
    (getUserEmail sampleConfig envSuccessFalse "u1" Trace.empty).1 = .ok none :=
  ⟨rfl, by decide, rfl⟩

theorem lookupEmail_eq_some_iff (env : Env) (e : String) :
    lookupEmail env = some e ↔
      ∃ s b, env.statusResult = .resp s (.val b) ∧ httpOk s = true ∧
        b.success = true ∧ b.registered = true ∧ b.email = some e ∧ e ≠ "" := by
  cases hs : env.statusResult with
  | netThrow => simp [lookupEmail, hs]
  | resp s body =>
    cases body with
    | parseFail => simp [lookupEmail, hs]
    | val b =>
      by_cases hc : (httpOk s && b.success && b.registered && optTruthy b.email) = true
      · have hc' := hc
        simp only [Bool.and_eq_true] at hc'
        obtain ⟨⟨⟨hok, hsu⟩, hrg⟩, hem⟩ := hc'
        simp only [lookupEmail, hs, if_pos hc]
        constructor
        · intro h
          refine ⟨s, b, rfl, hok, hsu, hrg, h, ?_⟩
          rw [h] at hem
          simpa [optTruthy] using hem
        · rintro ⟨s', b', hsb, _, _, _, hem', _⟩
          cases hsb
          exact hem'
      · simp only [lookupEmail, hs, if_neg hc]
        apply iff_of_false (by simp)
        rintro ⟨s', b', hsb, hok, hsu, hrg, hem, hne⟩
        cases hsb
        exact hc (by simp [hok, hsu, hrg, hem, optTruthy, hne])

/-- C2, amended: `getUserEmail` returns an email exactly when the HTTP
response is a success AND the body's `success` flag is set AND it
reports `registered=true` AND a non-empty email is present; every other
outcome — network failure, unparseable body, non-2xx status, or
`registered=false` — uniformly returns `null`, indistinguishable from
"not registered". -/
theorem C2_amended (cfg : Config) (env : Env) (discordId : String) (t : Trace) (e : String) :
    ((getUserEmail cfg env discordId t).1 = .ok (some e) ↔
      ∃ s b, env.statusResult = .resp s (.val b) ∧ httpOk s = true ∧
        b.success = true ∧ b.registered = true ∧ b.email = some e ∧ e ≠ "") ∧
    (env.statusResult = .netThrow →
      (getUserEmail cfg env discordId t).1 = .ok none) ∧
    (∀ s, env.statusResult = .resp s .parseFail →
      (getUserEmail cfg env discordId t).1 = .ok none) ∧
    (∀ s b, env.statusResult = .resp s (.val b) → httpOk s = false →
      (getUserEmail cfg env discordId t).1 = .ok none) ∧
    (∀ s b, env.statusResult = .resp s (.val b) → b.registered = false →
      (getUserEmail cfg env discordId t).1 = .ok none) := by
  rw [getUserEmail_run]
  refine ⟨?_, ?_, ?_, ?_, ?_⟩
  · simpa using lookupEmail_eq_some_iff env e
  · intro hs; simp [lookupEmail, hs]
  · intro s hs; simp [lookupEmail, hs]
  · intro s b hs hok; simp [lookupEmail, hs, hok]
  · intro s b hs hrg; simp [lookupEmail, hs, hrg]

/-- C2 witness: the amended theorem applied at a network failure (yields
`null`) and at the registered fixture (yields the email). -/
theorem C2_witness :
    (getUserEmail sampleConfig { envRegistered with statusResult := .netThrow }
        "u1" Trace.empty).1 = .ok none :=
  (C2_amended sampleConfig { envRegistered with statusResult := .netThrow }
    "u1" Trace.empty "a@b.c").2.1 rfl

/-! ### C3 -/

/-- C3: the classifier's decision order is first-match-wins — a non-bot
message whose content starts with the register token, or equals a
status-query token, is dispatched to the corresponding command handler
(the entry counter reads one), and the run is unchanged under any
substitution of the allow-list, so a command from a guild channel
outside a non-empty allow-list is still processed. -/
theorem C3_command_priority (cfg : Config) (env : Env) (msg : Msg) (L : List String)
    (hbot : msg.authorIsBot = false) :
    (startsWithStr msg.content "!register" = true →
       (runHandle cfg env msg).2.regCmdCalls = 1 ∧
       runHandle { cfg with ALLOWED_CHANNELS := L } env msg = runHandle cfg env msg) ∧
    ((msg.content = "!status" ∨ msg.content = "!whoami") →
       (runHandle cfg env msg).2.statusCmdCalls = 1 ∧
       runHandle { cfg with ALLOWED_CHANNELS := L } env msg = runHandle cfg env msg) := by
  constructor
  · intro hreg
    refine ⟨?_, ?_⟩
    · unfold runHandle
      rw [handleMessage_register cfg env msg hbot hreg]
      rfl
    · unfold runHandle
      rw [handleMessage_register cfg env msg hbot hreg,
          handleMessage_register { cfg with ALLOWED_CHANNELS := L } env msg hbot hreg]
      rfl
  · intro hst
    have hreg : startsWithStr msg.content "!register" = false := by
      rcases hst with h | h <;> rw [h] <;> decide
    refine ⟨?_, ?_⟩
    · unfold runHandle
      rw [handleMessage_status cfg env msg hbot hreg hst]
      rfl
    · unfold runHandle
      rw [handleMessage_status cfg env msg hbot hreg hst,
          handleMessage_status { cfg with ALLOWED_CHANNELS := L } env msg hbot hreg hst]
      rfl

/-- A guild message in a channel outside the non-empty allow-list. -/
def blockedGuildMsg : Msg := { guildImageMsg with content := "hello there" }

def allowListConfig : Config := { sampleConfig with ALLOWED_CHANNELS := ["other-channel"] }

/-- C3 witness: `!register` sent from a guild channel absent from a
non-empty allow-list is still dispatched to the registration handler,
and the run does not depend on the allow-list. -/
theorem C3_witness :
    (runHandle allowListConfig envRegistered
        { blockedGuildMsg with content := "!register" }).2.regCmdCalls = 1 ∧
    runHandle { allowListConfig with ALLOWED_CHANNELS := [] } envRegistered
        { blockedGuildMsg with content := "!register" } =
      runHandle allowListConfig envRegistered
        { blockedGuildMsg with content := "!register" } :=
  (C3_command_priority allowListConfig envRegistered
      { blockedGuildMsg with content := "!register" } [] rfl).1 (by decide)

/-! ### C4 -/

theorem handleAttachments_allowlistCongr (cfg : Config) (L : List String) (env : Env)
    (msg : Msg) : ∀ l, handleAttachments { cfg with ALLOWED_CHANNELS := L } env msg l =
      handleAttachments cfg env msg l := by
  intro l
  induction l with
  | nil => rfl
  | cons a l ih =>
    unfold handleAttachments
    simp only [ih]
    rfl

/-- C4: the allow-list gate — for a non-bot, non-command message: a
guild message whose channel is outside a non-empty allow-list produces
an empty trace (no forwarding call, no request, no reply); an empty
allow-list never blocks; and a direct message is never filtered — its
guard is false and the whole run is independent of the allow-list. -/
theorem C4_allowlist_gate (cfg : Config) (env : Env) (msg : Msg) (L : List String)
    (hbot : msg.authorIsBot = false)
    (hreg : startsWithStr msg.content "!register" = false)
    (hst : ¬(msg.content = "!status" ∨ msg.content = "!whoami")) :
    (msg.guildId.isSome = true → cfg.ALLOWED_CHANNELS ≠ [] →
       cfg.ALLOWED_CHANNELS.contains msg.channelId = false →
       (runHandle cfg env msg).2 = Trace.empty) ∧
    (cfg.ALLOWED_CHANNELS = [] → channelBlocked cfg msg = false) ∧
    (msg.guildId = none →
       channelBlocked cfg msg = false ∧
       runHandle { cfg with ALLOWED_CHANNELS := L } env msg = runHandle cfg env msg) := by
  refine ⟨?_, ?_, ?_⟩
  · intro hg hne hcont
    have hbl : channelBlocked cfg msg = true := by
      have hmem : msg.channelId ∉ cfg.ALLOWED_CHANNELS := by simpa using hcont
      simp [channelBlocked, hg, List.length_pos, hne, hmem]
    unfold runHandle
    rw [handleMessage_blocked cfg env msg hbot hreg hst hbl]
  · intro hempty
    simp [channelBlocked, hempty]
  · intro hg
    have hbl1 : channelBlocked { cfg with ALLOWED_CHANNELS := L } msg = false := by
      simp [channelBlocked, hg]
    have hbl2 : channelBlocked cfg msg = false := by
      simp [channelBlocked, hg]
    refine ⟨hbl2, ?_⟩
    unfold runHandle handleMessage
    rw [hbl1, hbl2]
    simp only [handleAttachments_allowlistCongr]
    rfl

/-- C4 witness: a plain guild message in a channel outside the non-empty
allow-list leaves the trace empty. -/
theorem C4_witness :
    (runHandle allowListConfig envRegistered blockedGuildMsg).2 = Trace.empty :=
  (C4_allowlist_gate allowListConfig envRegistered blockedGuildMsg []
      rfl (by decide) (by decide)).1 rfl (by decide) (by decide)

/-! ### C5 -/

theorem flatMap_stepForwards_eq_filterMap : ∀ l : List Attachment,
    l.flatMap attachmentStepForwards =
      l.filterMap (fun att =>
        if isImageContentType att.contentType then
          some (att.url, jsNameOrUndefined att.name)
        else none) := by
  intro l
  induction l with
  | nil => rfl
  | cons a l ih =>
    cases h : isImageContentType a.contentType <;>
      simp [attachmentStepForwards, h, ih]

/-- C5: every attachment reaching the attachment step whose declared
content type matches the fixed image set yields exactly one
`forwardAttachment` invocation with that attachment's URL and name
(in source order), and attachments outside the set contribute no
invocation; a message all of whose attachments are outside the set
draws no forward call, no HTTP request and no reply. -/
theorem C5_attachment_filter (cfg : Config) (env : Env) (msg : Msg)
    (hbot : msg.authorIsBot = false)
    (hreg : startsWithStr msg.content "!register" = false)
    (hst : ¬(msg.content = "!status" ∨ msg.content = "!whoami"))
    (hbl : channelBlocked cfg msg = false)
    (hatt : 0 < msg.attachments.length)
    (hrt : env.replyThrows = false) :
    (runHandle cfg env msg).2.attForwards =
      msg.attachments.filterMap (fun att =>
        if isImageContentType att.contentType then
          some (att.url, jsNameOrUndefined att.name)
        else none) ∧
    ((∀ att ∈ msg.attachments, isImageContentType att.contentType = false) →
       (runHandle cfg env msg).2.replies = [] ∧
       (runHandle cfg env msg).2.attForwards = [] ∧
       (runHandle cfg env msg).2.requests = []) := by
  unfold runHandle
  rw [handleMessage_attachments cfg env msg hbot hreg hst hbl hatt hrt]
  refine ⟨?_, ?_⟩
  · simp [Trace.empty, flatMap_stepForwards_eq_filterMap]
  · intro hall
    refine ⟨?_, ?_, ?_⟩ <;>
      simp [Trace.empty, List.flatMap_eq_nil_iff, attachmentStepReplies,
        attachmentStepForwards, attachmentStepRequests] <;>
      intro att hmem <;>
      simp [hall att hmem]

/-- A direct message carrying a PNG and a PDF attachment. -/
def dmMixedMsg : Msg := { dmImageMsg with attachments := [pngAttachment, pdfAttachment] }

/-- C5 witness: of a PNG and a PDF attachment in one direct message,
exactly the PNG is forwarded, with its URL and name. -/
theorem C5_witness :
    (runHandle sampleConfig envRegistered dmMixedMsg).2.attForwards =
      dmMixedMsg.attachments.filterMap (fun att =>
        if isImageContentType att.contentType then
          some (att.url, jsNameOrUndefined att.name)
        else none) :=
  (C5_attachment_filter sampleConfig envRegistered dmMixedMsg
      rfl (by decide) (by decide) (by decide) (by decide) rfl).1

/-! ### C6 -/

/-- C6: the registration command is strictly argument-less — for a
non-bot message dispatched by the register-token prefix: when the
trimmed content is exactly `!register`, the run issues exactly one HTTP
request, the OAuth-initiation POST carrying the author's id and
username; when the trimmed content is anything else, no HTTP request is
issued at all and (when replying succeeds) the only reply is the
rejection message. -/
theorem C6_register_argless (cfg : Config) (env : Env) (msg : Msg)
    (hbot : msg.authorIsBot = false)
    (hreg : startsWithStr msg.content "!register" = true) :
    (trimStr msg.content = "!register" →
       (runHandle cfg env msg).2.requests = [oauthInitRequest cfg msg]) ∧
    (trimStr msg.content ≠ "!register" →
       (runHandle cfg env msg).2.requests = [] ∧
       (env.replyThrows = false →
         (runHandle cfg env msg).2.replies = [invalidRegisterFormatReply])) := by
  unfold runHandle
  rw [handleMessage_register cfg env msg hbot hreg]
  constructor
  · intro htrim
    simp [Trace.empty, regCmdRequests, htrim]
  · intro htrim
    refine ⟨?_, ?_⟩
    · simp [Trace.empty, regCmdRequests, htrim]
    · intro hrt
      simp [Trace.empty, regCmdReplies, htrim, hrt]

/-- C6 witness: `!register` alone issues exactly the OAuth POST with the
author's id and username; `!register extra-arg` issues nothing and is
rejected with the corrective reply. -/
theorem C6_witness :
    (runHandle sampleConfig envRegistered
        { dmImageMsg with content := "!register", attachments := [] }).2.requests =
      [oauthInitRequest sampleConfig
        { dmImageMsg with content := "!register", attachments := [] }] ∧
    (runHandle sampleConfig envRegistered
        { dmImageMsg with content := "!register extra-arg", attachments := [] }).2.requests = [] ∧
    (runHandle sampleConfig envRegistered
        { dmImageMsg with content := "!register extra-arg", attachments := [] }).2.replies =
      [invalidRegisterFormatReply] := by
  refine ⟨?_, ?_, ?_⟩
  · exact (C6_register_argless sampleConfig envRegistered
      { dmImageMsg with content := "!register", attachments := [] } rfl (by decide)).1
      (by decide)
  · exact ((C6_register_argless sampleConfig envRegistered
      { dmImageMsg with content := "!register extra-arg", attachments := [] } rfl
      (by decide)).2 (by decide)).1
  · exact ((C6_register_argless sampleConfig envRegistered
      { dmImageMsg with content := "!register extra-arg", attachments := [] } rfl
      (by decide)).2 (by decide)).2 rfl

/-! ### C7 -/

/-- C7: both forwarder entry points interpret the receiver's response by
the single criterion `uploadSuccess` — success exactly when the HTTP
status is 2xx and the parsed body truthy — once their preconditions to
reach the upload hold (`forwardAttachment`: lookup succeeded and the
CDN fetch returned 2xx; `forwardText`: non-empty trimmed content); and
`uploadSuccess` uniformly rejects a non-2xx response with parseable
body, an unparseable body, and a failed request. -/
theorem C7_uniform_success (cfg : Config) (env : Env) (msg : Msg) (url : String)
    (name : Option String) (t : Trace) (e : String) :
    (lookupEmail env = some e →
      ∀ fs fb, env.attachmentFetch url = .resp fs fb → httpOk fs = true →
        (forwardAttachment cfg env msg url name t).1 = .ok (uploadSuccess env.uploadResult)) ∧
    (trimStr msg.content ≠ "" →
      (forwardText cfg env msg t).1 = .ok (uploadSuccess env.uploadResult)) ∧
    (∀ s v, httpOk s = false → uploadSuccess (.resp s (.val v)) = false) ∧
    (∀ s, uploadSuccess (.resp s .parseFail) = false) ∧
    uploadSuccess .netThrow = false := by
  refine ⟨?_, ?_, ?_, ?_, ?_⟩
  · intro hlook fs fb hf hok
    rw [forwardAttachment_run]
    unfold attForwardOutcome
    simp [hlook, hf, hok]
  · intro htrim
    rw [forwardText_run]
    unfold textForwardOutcome
    simp [htrim]
  · intro s v hok
    simp [uploadSuccess, hok]
  · intro s
    simp [uploadSuccess]
  · simp [uploadSuccess]

/-- C7 witness: with a registered author and a 2xx CDN fetch, both entry
points return exactly `uploadSuccess` of the receiver's response. -/
theorem C7_witness :
    (forwardAttachment sampleConfig envRegistered dmImageMsg
        pngAttachment.url (some "x.png") Trace.empty).1 =
      .ok (uploadSuccess envRegistered.uploadResult) ∧
    (forwardText sampleConfig envRegistered
        { dmImageMsg with content := "hello", attachments := [] } Trace.empty).1 =
      .ok (uploadSuccess envRegistered.uploadResult) :=
  ⟨(C7_uniform_success sampleConfig envRegistered dmImageMsg pngAttachment.url
      (some "x.png") Trace.empty "a@b.c").1 (by decide) 200 (.val ()) rfl (by decide),
   (C7_uniform_success sampleConfig envRegistered
      { dmImageMsg with content := "hello", attachments := [] } pngAttachment.url
      (some "x.png") Trace.empty "a@b.c").2.1 (by decide)⟩

/-! ### C8 -/

/-- C8: for every configuration, environment oracle (including throwing
replies, rejected fetches and unparseable bodies at every call site) and
inbound message, the message-handling entry point returns normally — no
exception of any downstream step propagates to the platform dispatcher. -/
theorem C8_handler_total (cfg : Config) (env : Env) (msg : Msg) :
    (runHandle cfg env msg).1 = Except.ok () := by
  unfold runHandle handleMessage
  exact catchAll_pure_ok _ _

/-! ### C9 -/

/-- C9: the lifecycle state machine — `start` on a running service is a
no-op that changes no state; a failing `start` (config validation error,
or login failure) surfaces the error to the caller and leaves
`isRunning` false; every erroring `start` leaves `isRunning` false; and
`stop` on a stopped service is an idempotent no-op. -/
theorem C9_lifecycle (cfg : Config) (env : LifecycleEnv) (s : ServiceState) :
    (s.isRunning = true → start cfg env s = (.ok (), s)) ∧
    (∀ e, s.isRunning = false → validateConfig cfg = .error e →
       start cfg env s = (.error e, s)) ∧
    (s.isRunning = false → validateConfig cfg = .ok () → env.loginOk = false →
       (start cfg env s).1 = .error .loginFailed ∧ (start cfg env s).2.isRunning = false) ∧
    (∀ e s', start cfg env s = (.error e, s') → s'.isRunning = false) ∧
    (s.isRunning = false → stop env s = (.ok (), s)) := by
  refine ⟨?_, ?_, ?_, ?_, ?_⟩
  · intro h
    simp [start, h]
  · intro e h hv
    simp [start, h, hv]
  · intro h hv hl
    simp [start, h, hv, hl]
  · intro e s' hrun
    by_cases h : s.isRunning = true
    · rw [show start cfg env s = (.ok (), s) from by simp [start, h]] at hrun
      exact absurd hrun (by simp)
    · have h' : s.isRunning = false := by simpa using h
      cases hv : validateConfig cfg with
      | error e2 =>
        rw [show start cfg env s = (.error e2, s) from by simp [start, h', hv]] at hrun
        have h2 : s = s' := congrArg Prod.snd hrun
        exact h2 ▸ h'
      | ok u =>
        cases u
        by_cases hl : env.loginOk = false
        · rw [show start cfg env s = (.error .loginFailed, { s with client := some () })
            from by simp [start, h', hv, hl]] at hrun
          have h2 : ({ s with client := some () } : ServiceState) = s' :=
            congrArg Prod.snd hrun
          have h'' : ({ s with client := some () } : ServiceState).isRunning = false := h'
          exact h2 ▸ h''
        · rw [show start cfg env s = (.ok (), { client := some (), isRunning := true })
            from by simp [start, h', hv, hl]] at hrun
          exact absurd hrun (by simp)
  · intro h
    simp [stop, h]

/-- C9 witness: `start` on an already-running service returns success
and exactly the incoming state. -/
theorem C9_witness :
    start sampleConfig { loginOk := true, destroyOk := true }
        { client := some (), isRunning := true } =
      (.ok (), { client := some (), isRunning := true }) :=
  (C9_lifecycle sampleConfig { loginOk := true, destroyOk := true }
      { client := some (), isRunning := true }).1 rfl

/-! ### C10 -/

/-- C10: when `client.destroy` throws inside `stop`, the error is
swallowed — `stop` still resolves successfully — and the state is left
untouched (`isRunning` stays true, the client reference is retained),
so the service still reports running and a later `stop` with a working
teardown clears the state. -/
theorem C10_stop_swallows (env env2 : LifecycleEnv) (s : ServiceState)
    (hrun : s.isRunning = true) (hcl : s.client = some ())
    (hdes : env.destroyOk = false) :
    stop env s = (.ok (), s) ∧
    (env2.destroyOk = true →
      stop env2 s = (.ok (), { client := none, isRunning := false })) := by
  constructor
  · simp [stop, hrun, hcl, hdes]
  · intro h2
    simp [stop, hrun, hcl, h2]

/-- C10 witness: a failing teardown leaves the running state in place;
retrying with a working teardown stops the service. -/
theorem C10_witness :
    stop { loginOk := true, destroyOk := false } { client := some (), isRunning := true } =
      (.ok (), { client := some (), isRunning := true }) ∧
    stop { loginOk := true, destroyOk := true } { client := some (), isRunning := true } =
      (.ok (), { client := none, isRunning := false }) := by
  refine ⟨?_, ?_⟩
  · exact (C10_stop_swallows { loginOk := true, destroyOk := false }
      { loginOk := true, destroyOk := true } { client := some (), isRunning := true }
      rfl rfl rfl).1
  · exact (C10_stop_swallows { loginOk := true, destroyOk := false }
      { loginOk := true, destroyOk := true } { client := some (), isRunning := true }
      rfl rfl rfl).2 rfl

end CalBot
